import Mathlib

/-!
Shallow embedding of the Discord-interactions Cloudflare worker
(`src/server.js`, with command metadata from `src/commands.js`).

JSON values produced by `JSON.parse` are modelled by the inductive type
`Json` (numbers are modelled as integers; the claims involve no floats).
JavaScript semantics used by the source are made explicit:
truthiness (`jsTruthy`), optional chaining `a?.f` (`jsOptGet`),
plain property access `a.f` which throws a TypeError on nullish bases
(`jsFieldOpt`), `x || y` (`jsOrOpt`), `x ?? ''` (`coalesceEmpty`),
string coercion `String(x)` (`jsToString`), `trim`/`toLowerCase`
(ASCII portion, which covers every string the source compares against),
and `JSON.stringify` (`stringify`).

Exceptions are modelled with `Except JsErr`; engine-generated TypeError
text is abstracted by `JsErr.message` (the source never inspects it).
Network interaction is modelled by oracles: `verify` for `verifyKey`,
`parse` for `JSON.parse` of the request body (`none` = SyntaxError),
and `ds` for `fetch` of the downstream admin API.  Observable effects
(JSON-parsing the body, outbound POSTs with their payloads) are returned
in an explicit effect list.
-/

/-- Values produced by `JSON.parse`: null, booleans, (integer) numbers,
strings, arrays and objects (objects have unique keys). -/
inductive Json where
  | null
  | bool (b : Bool)
  | num (n : Int)
  | str (s : String)
  | arr (xs : List Json)
  | obj (fields : List (String × Json))

/-- JavaScript truthiness of a JSON value: everything is truthy except
`null`, `false`, `0` and the empty string. -/
def jsTruthy : Json → Bool
  | .null => false
  | .bool b => b
  | .num n => n != 0
  | .str s => s != ""
  | .arr _ => true
  | .obj _ => true

/-- Field lookup in a JSON object (keys are unique, so first match). -/
def jsLookup (fs : List (String × Json)) (f : String) : Option Json :=
  (fs.find? (fun p => p.1 == f)).map (fun p => p.2)

/-- Thrown JavaScript errors reaching the model: `new Error(message)`
from `postJSON`, a TypeError from reading a property of a nullish value
(engine-generated text abstracted), or a SyntaxError from `JSON.parse`. -/
inductive JsErr where
  | jsError (message : String)
  | typeErrorRead (base field : String)
  | parseError

/-- Message of a thrown error, as used by `(err && err.message) || err`.
The TypeError and SyntaxError texts are engine-defined; the source never
matches on them, so any faithful rendering works. -/
def JsErr.message : JsErr → String
  | .jsError m => m
  | .typeErrorRead b f => "Cannot read properties of " ++ b ++ " (reading " ++ f ++ ")"
  | .parseError => "Unexpected token in JSON"

/-- Optional chaining `a?.f`: nullish bases yield undefined, non-object
bases yield undefined, objects look the field up.  `none` stands for the
JavaScript value `undefined`. -/
def jsOptGet : Option Json → String → Option Json
  | none, _ => none
  | some .null, _ => none
  | some (.obj fs), f => jsLookup fs f
  | some _, _ => none

/-- Plain property access `a.f`: throws a TypeError when the base is
nullish, yields undefined on non-object bases, looks the field up on
objects. -/
def jsFieldOpt : Option Json → String → Except JsErr (Option Json)
  | none, f => .error (.typeErrorRead "undefined" f)
  | some .null, f => .error (.typeErrorRead "null" f)
  | some (.obj fs), f => .ok (jsLookup fs f)
  | some _, _ => .ok none

/-- Plain property access on a value known to be a `Json` (not undefined). -/
def jsField (v : Json) (f : String) : Except JsErr (Option Json) :=
  jsFieldOpt (some v) f

/-- JavaScript `x || y` over possibly-undefined values: the left operand
when it is truthy, otherwise the right operand. -/
def jsOrOpt (x y : Option Json) : Option Json :=
  match x with
  | some v => if jsTruthy v then some v else y
  | none => y

/-- JavaScript `x ?? ''`: the empty string when `x` is nullish. -/
def coalesceEmpty : Option Json → Json
  | none => .str ""
  | some .null => .str ""
  | some v => v

/-- Whether an optional value is falsy, as tested by `!x`. -/
def jsFalsyOpt : Option Json → Bool
  | none => true
  | some v => !jsTruthy v

mutual
/-- Conversion of an array to a string, `Array.prototype.toString`:
elements joined by commas; `null` elements contribute the empty string. -/
def arrJoin : List Json → String
  | [] => ""
  | [x] => arrElem x
  | x :: y :: xs => arrElem x ++ "," ++ arrJoin (y :: xs)

/-- One array element inside `arrJoin`: `null` becomes empty, other
values are string-coerced. -/
def arrElem : Json → String
  | .null => ""
  | .bool true => "true"
  | .bool false => "false"
  | .num n => toString n
  | .str s => s
  | .arr xs => arrJoin xs
  | .obj _ => "[object Object]"
end

/-- JavaScript string coercion `String(x)` of a JSON value. -/
def jsToString : Json → String
  | .null => "null"
  | .bool true => "true"
  | .bool false => "false"
  | .num n => toString n
  | .str s => s
  | .arr xs => arrJoin xs
  | .obj _ => "[object Object]"

/-- Characters removed by `String.prototype.trim` (ASCII portion). -/
def jsWhitespace (c : Char) : Bool :=
  c == ' ' || c == '\t' || c == '\n' || c == '\r' || c == '\x0b' || c == '\x0c'

/-- JavaScript `s.trim()`. -/
def jsTrim (s : String) : String :=
  String.mk (((s.data.dropWhile jsWhitespace).reverse.dropWhile jsWhitespace).reverse)

/-- JavaScript `s.toLowerCase()` (ASCII portion; every string the source
compares against is ASCII). -/
def jsToLowerCase (s : String) : String :=
  String.mk (s.data.map Char.toLower)

/-- Lowercase hexadecimal digit, for control-character escapes. -/
def hexDigit (n : Nat) : String :=
  String.singleton (Char.ofNat (if n < 10 then 48 + n else 87 + n))

/-- Escaping of one character inside a `JSON.stringify` string literal. -/
def escapeChar (c : Char) : String :=
  if c = '"' then "\\\""
  else if c = '\\' then "\\\\"
  else if c = '\n' then "\\n"
  else if c = '\r' then "\\r"
  else if c = '\t' then "\\t"
  else if c = '\x08' then "\\b"
  else if c = '\x0c' then "\\f"
  else if c.toNat < 32 then "\\u00" ++ hexDigit (c.toNat / 16) ++ hexDigit (c.toNat % 16)
  else String.singleton c

/-- A `JSON.stringify` string literal. -/
def quoteStr (s : String) : String :=
  "\"" ++ String.join (s.data.map escapeChar) ++ "\""

mutual
/-- JavaScript `JSON.stringify` of a JSON value. -/
def stringify : Json → String
  | .null => "null"
  | .bool true => "true"
  | .bool false => "false"
  | .num n => toString n
  | .str s => quoteStr s
  | .arr xs => "[" ++ stringifyArr xs ++ "]"
  | .obj fs => "\x7b" ++ stringifyObj fs ++ "\x7d"

/-- Comma-separated serialization of array elements. -/
def stringifyArr : List Json → String
  | [] => ""
  | [x] => stringify x
  | x :: y :: xs => stringify x ++ "," ++ stringifyArr (y :: xs)

/-- Comma-separated serialization of object fields. -/
def stringifyObj : List (String × Json) → String
  | [] => ""
  | [(k, v)] => quoteStr k ++ ":" ++ stringify v
  | (k, v) :: f :: fs => quoteStr k ++ ":" ++ stringify v ++ "," ++ stringifyObj (f :: fs)
end

/-- Name of the link command (`commands.js`, `LINK_COMMAND.name`). -/
def LINK_COMMAND_name : String := "link"

/-- Name of the unlink command (`commands.js`, `UNLINK_COMMAND.name`). -/
def UNLINK_COMMAND_name : String := "unlink"

/-- Base URL of the downstream admin API (`server.js`, `ADMIN_BASE`). -/
def ADMIN_BASE : String := "https://twitch.budgiebailey.workers.dev"

/-- Static allow-list of authorized Discord user ids
(`server.js`, `ADMIN_USER_IDS`). -/
def ADMIN_USER_IDS : List String := ["1356193903497318542"]

/-- Interaction type `PING` (from `discord-interactions`). -/
def InteractionType_PING : Int := 1

/-- Interaction type `APPLICATION_COMMAND` (from `discord-interactions`). -/
def InteractionType_APPLICATION_COMMAND : Int := 2

/-- Response type `PONG` (from `discord-interactions`). -/
def InteractionResponseType_PONG : Int := 1

/-- Response type `CHANNEL_MESSAGE_WITH_SOURCE` (from `discord-interactions`). -/
def InteractionResponseType_CHANNEL_MESSAGE_WITH_SOURCE : Int := 4

/-- Embeds `getInvokerId`:
`interaction?.member?.user?.id || interaction?.user?.id || ""`. -/
def getInvokerId (i : Json) : Json :=
  (jsOrOpt (jsOrOpt (jsOptGet (jsOptGet (jsOptGet (some i) "member") "user") "id")
                    (jsOptGet (jsOptGet (some i) "user") "id"))
           (some (.str ""))).getD (.str "")

/-- Embeds `isAuthorized`: `ADMIN_USER_IDS.includes(String(id))`, with the
allow-list as a parameter (instantiated with `ADMIN_USER_IDS`). -/
def isAuthorized (admins : List String) (i : Json) : Bool :=
  admins.contains (jsToString (getInvokerId i))

/-- The find predicate `o => o?.name === name`: strict equality against a
string, so true exactly when `o?.name` is that string. -/
def optNameMatches (name : String) (o : Json) : Bool :=
  match jsOptGet (some o) "name" with
  | some (.str s) => s == name
  | _ => false

/-- Embeds `getOption`: reads `interaction?.data?.options`, requires an
array, finds the first option whose `name` strictly equals the requested
name, and yields its `value` (undefined when absent). -/
def getOption (i : Json) (name : String) : Option Json :=
  match jsOptGet (jsOptGet (some i) "data") "options" with
  | some (.arr opts) =>
    match opts.find? (optNameMatches name) with
    | some o => jsOptGet (some o) "value"
    | none => none
  | _ => none

/-- Option resolution used by both command handlers:
`getOption(interaction, "twitch_login") || getOption(interaction, "login")`. -/
def resolvedLogin (i : Json) : Option Json :=
  jsOrOpt (getOption i "twitch_login") (getOption i "login")

/-- Outcome of one `fetch` to the downstream admin API: a network-level
rejection, or a response with status, status text and a JSON body
(`none` = the body is not JSON, so `res.json()` rejects). -/
inductive FetchOutcome where
  | networkError (message : String)
  | response (status : Nat) (statusText : String) (jsonBody : Option Json)

/-- Downstream oracle: url, bearer token, payload to outcome. -/
def Downstream := String → String → Json → FetchOutcome

/-- Embeds `postJSON` (minus the `fetch` effect, recorded by callers):
parses the response body tolerantly (`{}` on failure), throws
`Error("HTTP status statusText: body")` on a non-2xx status, otherwise
returns the parsed data. -/
def postJSON (outcome : FetchOutcome) : Except JsErr Json :=
  match outcome with
  | .networkError m => .error (.jsError m)
  | .response st stx body =>
    let data := body.getD (Json.obj [])
    if 200 ≤ st ∧ st < 300 then .ok data
    else .error (.jsError ("HTTP " ++ toString st ++ " " ++ stx ++
      (if jsTruthy data then ": " ++ stringify data else "")))

/-- Observable effects of one request: JSON-parsing the request body, and
outbound POSTs with their url, bearer token and payload. -/
inductive Effect where
  | parseBody (body : String)
  | outbound (url : String) (token : String) (payload : Json)

/-- Responses sent back to Discord: a plain-text `Response` with a status,
or a `JsonResponse` (status 200 unless an explicit init is given). -/
inductive HandlerResponse where
  | plain (status : Nat) (text : String)
  | jsonRes (status : Nat) (body : Json)

/-- A `CHANNEL_MESSAGE_WITH_SOURCE` reply with the given content
(a `JsonResponse` with the default 200 status). -/
def channelMessage (content : String) : HandlerResponse :=
  .jsonRes 200 (.obj [("type", .num InteractionResponseType_CHANNEL_MESSAGE_WITH_SOURCE),
                      ("data", .obj [("content", .str content)])])

/-- The `{ error: "Unknown Type" }` reply with status 400. -/
def unknownTypeResponse : HandlerResponse :=
  .jsonRes 400 (.obj [("error", .str "Unknown Type")])

/-- Text interpolated by the catch blocks, `(err && err.message) || err`:
the message of the thrown error, or the string coercion of a
message-less `Error` (which is "Error"). -/
def caughtText (e : JsErr) : String :=
  if e.message == "" then "Error" else e.message

/-- Computation of the link login value:
`String(loginOpt ?? "").trim().toLowerCase()`. -/
def linkLoginStr (o : Option Json) : String :=
  jsToLowerCase (jsTrim (jsToString (coalesceEmpty o)))

/-- Elementwise join with a separator, `Array.prototype.join(", ")`
(null elements contribute the empty string). -/
def joinCommaSpace : List Json → String
  | [] => ""
  | [x] => arrElem x
  | x :: y :: xs => arrElem x ++ ", " ++ joinCommaSpace (y :: xs)

/-- Embeds the `link` case of the command switch (`server.js` lines
116-160), given the already-resolved login and discord_user option
values.  The try/catch is total: every throw inside the block becomes a
failure reply. -/
def linkCase (token : String) (loginOpt duOpt : Option Json) (ds : Downstream) :
    HandlerResponse × List Effect :=
  let login := linkLoginStr loginOpt
  let discordUserId := jsTrim (jsToString (coalesceEmpty duOpt))
  if login == "" || discordUserId == "" then
    (channelMessage "❌ Missing required options. Example: `/link twitch_login:cxrys_ discord_user:@User`", [])
  else
    let payload := Json.obj [("login", .str login), ("discord_user_id", .str discordUserId)]
    let url := ADMIN_BASE ++ "/admin/register"
    let effs := [Effect.outbound url token payload]
    match postJSON (ds url token payload) with
    | .error e => (channelMessage ("❌ Link failed: `" ++ caughtText e ++ "`"), effs)
    | .ok res =>
      match jsField res "created" with
      | .error e => (channelMessage ("❌ Link failed: `" ++ caughtText e ++ "`"), effs)
      | .ok createdOpt =>
        let created :=
          match createdOpt with
          | some (.arr xs) => if xs.length != 0 then " (created: " ++ joinCommaSpace xs ++ ")" else ""
          | _ => ""
        match jsField res "twitch_id" with
        | .error e => (channelMessage ("❌ Link failed: `" ++ caughtText e ++ "`"), effs)
        | .ok twitchIdOpt =>
          let tid :=
            match twitchIdOpt with
            | none => "unknown"
            | some .null => "unknown"
            | some v => jsToString v
          (channelMessage ("✅ Linked **" ++ login ++ "** → <@" ++ discordUserId ++ ">\n" ++
             "Twitch ID: `" ++ tid ++ "`" ++ created), effs)

/-- Sparse payload of the `unlink` case: `payload.login` is set only when
`loginOpt` is truthy (trimmed and lowercased), `payload.broadcaster_id`
only when `bidOpt` is truthy (trimmed). -/
def unlinkFields (loginOpt bidOpt : Option Json) : List (String × Json) :=
  (match loginOpt with
   | some v => if jsTruthy v then [("login", Json.str (jsToLowerCase (jsTrim (jsToString v))))] else []
   | none => []) ++
  (match bidOpt with
   | some v => if jsTruthy v then [("broadcaster_id", Json.str (jsTrim (jsToString v)))] else []
   | none => [])

/-- Embeds the `unlink` case of the command switch (`server.js` lines
162-203), given the already-resolved login and broadcaster_id option
values.  The try/catch is total: every throw inside the block becomes a
failure reply. -/
def unlinkCase (token : String) (loginOpt bidOpt : Option Json) (ds : Downstream) :
    HandlerResponse × List Effect :=
  if jsFalsyOpt loginOpt && jsFalsyOpt bidOpt then
    (channelMessage ("❌ Provide `twitch_login` **or** `broadcaster_id`.\n" ++
       "Examples:\n• `/unlink twitch_login:cxrys_`\n• `/unlink broadcaster_id:564886943`"), [])
  else
    let fields := unlinkFields loginOpt bidOpt
    let payload := Json.obj fields
    let url := ADMIN_BASE ++ "/admin/unregister"
    let effs := [Effect.outbound url token payload]
    match postJSON (ds url token payload) with
    | .error e => (channelMessage ("❌ Unlink failed: `" ++ caughtText e ++ "`"), effs)
    | .ok res =>
      let shown := jsOrOpt (jsOrOpt (jsOptGet (some res) "broadcaster_id")
                                    (jsLookup fields "broadcaster_id"))
                           (some (.str "unknown"))
      (channelMessage ("✅ Unlinked Twitch ID `" ++ jsToString (shown.getD (.str "unknown")) ++ "`" ++
         " (EventSub removed, mapping cleared)"), effs)

/-- The switch discriminant `String(interaction.data.name || "").toLowerCase()`.
The access `interaction.data.name` is a plain (non-optional) property
read: it throws a TypeError when `data` is absent or null. -/
def commandDisc (i : Json) : Except JsErr String :=
  match jsField i "data" with
  | .error e => .error e
  | .ok dataF =>
    match jsFieldOpt dataF "name" with
    | .error e => .error e
    | .ok nameF =>
      .ok (jsToLowerCase (jsToString
        (match nameF with
         | some v => if jsTruthy v then v else Json.str ""
         | none => Json.str "")))

/-- Name-based dispatch of the command switch: the `link` and `unlink`
cases (compared against the lowercased command names from `commands.js`)
and the fallthrough 400 default.  The option-value resolutions from the
tops of the two cases are passed in already evaluated, which preserves
semantics because `getOption` and `resolvedLogin` are total (pure
optional-chaining code that cannot throw). -/
def dispatchByName (token : String) (nm : String) (loginOpt duOpt bidOpt : Option Json)
    (ds : Downstream) : Except JsErr HandlerResponse × List Effect :=
  if nm == jsToLowerCase LINK_COMMAND_name then
    let r := linkCase token loginOpt duOpt ds
    (.ok r.1, r.2)
  else if nm == jsToLowerCase UNLINK_COMMAND_name then
    let r := unlinkCase token loginOpt bidOpt ds
    (.ok r.1, r.2)
  else (.ok unknownTypeResponse, [])

/-- Embeds the body of `router.post("/")` after verification
(`server.js` lines 98-210): PING handshake, authorization gate,
name-based dispatch to the two command cases, fallthrough 400. -/
def handleInteraction (admins : List String) (token : String) (i : Json) (ds : Downstream) :
    Except JsErr HandlerResponse × List Effect :=
  match jsField i "type" with
  | .error e => (.error e, [])
  | .ok ty =>
    match ty with
    | some (.num t) =>
      if t = InteractionType_PING then
        (.ok (.jsonRes 200 (.obj [("type", .num InteractionResponseType_PONG)])), [])
      else if t = InteractionType_APPLICATION_COMMAND then
        if !(isAuthorized admins i) then
          (.ok (channelMessage ("⛔ Not authorised (<@" ++ jsToString (getInvokerId i) ++ ">).")), [])
        else
          match commandDisc i with
          | .error e => (.error e, [])
          | .ok nm =>
            dispatchByName token nm (resolvedLogin i)
              (getOption i "discord_user") (getOption i "broadcaster_id") ds
      else (.ok unknownTypeResponse, [])
    | _ => (.ok unknownTypeResponse, [])

/-- An inbound POST request: the two signature headers (absent = `none`)
and the raw body text. -/
structure Request where
  sigHeader : Option String
  tsHeader : Option String
  body : String

/-- Oracle for `verifyKey(body, signature, timestamp, publicKey)`
(the public key is fixed, so folded into the oracle). -/
def Verify := String → String → String → Bool

/-- Validity computed by `verifyDiscordRequest`:
`signature && timestamp && await verifyKey(...)` — false when either
header is absent or empty, or the signature does not verify. -/
def verifyOk (verify : Verify) (req : Request) : Bool :=
  match req.sigHeader, req.tsHeader with
  | some s, some t => s != "" && t != "" && verify req.body s t
  | _, _ => false

/-- Embeds `router.post("/")` including `verifyDiscordRequest`: on an
invalid request, 401 without parsing; on a valid one, `JSON.parse` of the
body (SyntaxError propagates), the `!interaction` falsiness check
(401 again), then the interaction handler. -/
def handlePost (admins : List String) (token : String) (verify : Verify)
    (parse : String → Option Json) (ds : Downstream) (req : Request) :
    Except JsErr HandlerResponse × List Effect :=
  if verifyOk verify req then
    match parse req.body with
    | none => (.error .parseError, [.parseBody req.body])
    | some j =>
      if jsTruthy j then
        let r := handleInteraction admins token j ds
        (r.1, .parseBody req.body :: r.2)
      else (.ok (.plain 401 "Bad request signature."), [.parseBody req.body])
  else (.ok (.plain 401 "Bad request signature."), [])

/-- One option object `{ name, value }` of an interaction. -/
def mkOpt (p : String × Json) : Json :=
  .obj [("name", .str p.1), ("value", p.2)]

/-- A well-formed `APPLICATION_COMMAND` interaction from a guild member:
invoker id, command name, and named option values. -/
def mkCmdInteraction (invokerId : String) (cmd : String) (opts : List (String × Json)) : Json :=
  .obj [("type", .num InteractionType_APPLICATION_COMMAND),
        ("member", .obj [("user", .obj [("id", .str invokerId)])]),
        ("data", .obj [("name", .str cmd), ("options", .arr (opts.map mkOpt))])]

/-- Message of the error thrown by `postJSON` on a non-2xx response:
`HTTP status statusText` followed by the serialized response data when
that data is truthy. -/
def httpErrText (st : Nat) (stx : String) (body : Option Json) : String :=
  "HTTP " ++ toString st ++ " " ++ stx ++
    (if jsTruthy (body.getD (Json.obj [])) then ": " ++ stringify (body.getD (Json.obj [])) else "")

theorem find?_mkOpt (opts : List (String × Json)) (nm : String) :
    (opts.map mkOpt).find? (optNameMatches nm) =
      (opts.find? (fun p => p.1 == nm)).map mkOpt := by
  induction opts with
  | nil => rfl
  | cons p rest ih =>
    by_cases h : p.1 == nm <;>
      simp [optNameMatches, mkOpt, jsOptGet, jsLookup, List.find?, h, ih]

theorem getOption_mkCmd (who cmd : String) (opts : List (String × Json)) (nm : String) :
    getOption (mkCmdInteraction who cmd opts) nm =
      (opts.find? (fun p => p.1 == nm)).map (fun p => p.2) := by
  simp only [getOption, mkCmdInteraction, jsOptGet, jsLookup, List.find?,
    String.reduceBEq, beq_self_eq_true]
  simp only [Option.map_some', List.find?, String.reduceBEq, beq_self_eq_true, find?_mkOpt]
  cases h : opts.find? (fun p => p.1 == nm) with
  | none => rfl
  | some p => simp [mkOpt, jsOptGet, jsLookup, List.find?]

theorem getInvokerId_mkCmd (who cmd : String) (opts : List (String × Json)) :
    getInvokerId (mkCmdInteraction who cmd opts) = .str who := by
  by_cases h : who = "" <;>
    simp [getInvokerId, mkCmdInteraction, jsOptGet, jsLookup, List.find?, jsOrOpt, jsTruthy, h]

theorem commandDisc_mkCmd (who cmd : String) (opts : List (String × Json)) :
    commandDisc (mkCmdInteraction who cmd opts) = .ok (jsToLowerCase cmd) := by
  by_cases h : cmd = "" <;>
    simp [commandDisc, mkCmdInteraction, jsField, jsFieldOpt, jsLookup, List.find?,
      jsTruthy, jsToString, h]

/-- A downstream oracle answering every call with one fixed response. -/
def dsConst (st : Nat) (stx : String) (body : Option Json) : Downstream :=
  fun _ _ _ => .response st stx body

theorem handleInteraction_ping (admins : List String) (token : String) (i : Json)
    (ds : Downstream)
    (h : jsField i "type" = .ok (some (.num InteractionType_PING))) :
    handleInteraction admins token i ds =
      (.ok (.jsonRes 200 (.obj [("type", .num InteractionResponseType_PONG)])), []) := by
  unfold handleInteraction
  rw [h]
  simp

theorem handleInteraction_cmd (admins : List String) (token : String) (i : Json)
    (ds : Downstream)
    (h : jsField i "type" = .ok (some (.num InteractionType_APPLICATION_COMMAND))) :
    handleInteraction admins token i ds =
      if !(isAuthorized admins i) then
        (.ok (channelMessage ("⛔ Not authorised (<@" ++ jsToString (getInvokerId i) ++ ">).")), [])
      else
        match commandDisc i with
        | .error e => (.error e, [])
        | .ok nm => dispatchByName token nm (resolvedLogin i)
            (getOption i "discord_user") (getOption i "broadcaster_id") ds := by
  unfold handleInteraction
  rw [h]
  norm_num [InteractionType_PING, InteractionType_APPLICATION_COMMAND]

theorem postJSON_fail (st : Nat) (stx : String) (body : Option Json)
    (hst : ¬(200 ≤ st ∧ st < 300)) :
    postJSON (.response st stx body) = .error (.jsError (httpErrText st stx body)) := by
  simp only [postJSON, httpErrText]
  rw [if_neg hst]

theorem httpErrText_ne (st : Nat) (stx : String) (body : Option Json) :
    httpErrText st stx body ≠ "" := by
  intro h
  have hlen := congrArg String.length h
  rw [httpErrText] at hlen
  rw [String.length_append, String.length_append, String.length_append,
    String.length_append] at hlen
  have h5 : ("HTTP " : String).length = 5 := rfl
  have h0 : ("" : String).length = 0 := rfl
  omega

theorem linkCase_effects (token : String) (loginOpt duOpt : Option Json) (ds : Downstream)
    (h1 : linkLoginStr loginOpt ≠ "")
    (h2 : jsTrim (jsToString (coalesceEmpty duOpt)) ≠ "") :
    (linkCase token loginOpt duOpt ds).2 =
      [Effect.outbound (ADMIN_BASE ++ "/admin/register") token
        (Json.obj [("login", .str (linkLoginStr loginOpt)),
                   ("discord_user_id", .str (jsTrim (jsToString (coalesceEmpty duOpt))))])] := by
  unfold linkCase
  have hc : (linkLoginStr loginOpt == "" || jsTrim (jsToString (coalesceEmpty duOpt)) == "")
      = false := by
    simp [h1, h2]
  simp only [hc, Bool.false_eq_true, if_false]
  split <;> first
    | rfl
    | (split <;> first
        | rfl
        | (split <;> rfl))

theorem unlinkCase_effects (token : String) (loginOpt bidOpt : Option Json) (ds : Downstream)
    (hc : (jsFalsyOpt loginOpt && jsFalsyOpt bidOpt) = false) :
    (unlinkCase token loginOpt bidOpt ds).2 =
      [Effect.outbound (ADMIN_BASE ++ "/admin/unregister") token
        (Json.obj (unlinkFields loginOpt bidOpt))] := by
  unfold unlinkCase
  rw [hc]
  simp only [Bool.false_eq_true, if_false]
  split <;> rfl

/-- C1: a POST request that is missing the `x-signature-ed25519` header or
the `x-signature-timestamp` header, or whose signature fails verification,
is answered with the plain-text 401 response "Bad request signature." and
produces no effects at all: the body is never JSON-parsed and no
authorization, dispatch, or outbound call is performed on it. -/
theorem c1_unverified_post_rejected (admins : List String) (token : String)
    (verify : Verify) (parse : String → Option Json) (ds : Downstream) (req : Request)
    (h : req.sigHeader = none ∨ req.tsHeader = none ∨
         ∃ s t, req.sigHeader = some s ∧ req.tsHeader = some t ∧ verify req.body s t = false) :
    handlePost admins token verify parse ds req =
      (.ok (.plain 401 "Bad request signature."), []) := by
  have hv : verifyOk verify req = false := by
    rcases h with h | h | ⟨s, t, hs, ht, hf⟩
    · cases h2 : req.tsHeader <;> simp [verifyOk, h, h2]
    · cases h2 : req.sigHeader <;> simp [verifyOk, h, h2]
    · simp [verifyOk, hs, ht, hf]
  unfold handlePost
  rw [hv]
  simp

/-- Witness for C1 at a concrete request whose signature fails to verify. -/
theorem c1_unverified_post_rejected_witness :
    handlePost ADMIN_USER_IDS "tok" (fun _ _ _ => false) (fun _ => some Json.null)
      (fun _ _ _ => .networkError "down") (Request.mk (some "sig") (some "ts") "x") =
      (.ok (.plain 401 "Bad request signature."), []) :=
  c1_unverified_post_rejected _ _ _ _ _ _
    (Or.inr (Or.inr ⟨"sig", "ts", rfl, rfl, rfl⟩))

/-- C8: every verified interaction whose `type` is `PING` is answered with
a `PONG` response and an empty effect list (no outbound call), and the
answer is independent of the allow-list, the token, and the downstream
oracle — the allow-list and invoker identity are never consulted. -/
theorem c8_ping_always_pong (admins admins2 : List String) (token token2 : String)
    (i : Json) (ds ds2 : Downstream)
    (h : jsField i "type" = .ok (some (.num InteractionType_PING))) :
    handleInteraction admins token i ds =
      (.ok (.jsonRes 200 (.obj [("type", .num InteractionResponseType_PONG)])), []) ∧
    handleInteraction admins token i ds = handleInteraction admins2 token2 i ds2 := by
  refine ⟨handleInteraction_ping admins token i ds h, ?_⟩
  rw [handleInteraction_ping admins token i ds h, handleInteraction_ping admins2 token2 i ds2 h]

/-- Witness for C8 at a concrete PING interaction, with two different
allow-lists, tokens, and downstream oracles. -/
theorem c8_ping_always_pong_witness :
    handleInteraction ADMIN_USER_IDS "tok" (Json.obj [("type", Json.num 1)]) (dsConst 200 "OK" none) =
      (.ok (.jsonRes 200 (.obj [("type", .num InteractionResponseType_PONG)])), []) ∧
    handleInteraction ADMIN_USER_IDS "tok" (Json.obj [("type", Json.num 1)]) (dsConst 200 "OK" none) =
      handleInteraction [] "other" (Json.obj [("type", Json.num 1)]) (fun _ _ _ => .networkError "x") :=
  c8_ping_always_pong _ _ _ _ _ _ _ rfl

/-- C9: in the option resolution used by both command handlers, a present
`twitch_login` option whose value is falsy resolves to the legacy `login`
option, exactly as when `twitch_login` is absent. -/
theorem c9_falsy_primary_falls_back (i j : Json) (v : Json)
    (hp : getOption i "twitch_login" = some v) (hf : jsTruthy v = false) :
    resolvedLogin i = getOption i "login" ∧
    (getOption j "twitch_login" = none → resolvedLogin j = getOption j "login") := by
  constructor
  · rw [resolvedLogin, hp]
    simp [jsOrOpt, hf]
  · intro h0
    rw [resolvedLogin, h0]
    rfl

/-- Interaction with an empty-string `twitch_login` and a `login` option. -/
def c9iEx : Json :=
  mkCmdInteraction "u" "link" [("twitch_login", Json.str ""), ("login", Json.str "abc")]

/-- Interaction with only a `login` option. -/
def c9jEx : Json :=
  mkCmdInteraction "u" "link" [("login", Json.str "abc")]

/-- Witness for C9 at concrete interactions. -/
theorem c9_falsy_primary_falls_back_witness :
    resolvedLogin c9iEx = getOption c9iEx "login" ∧
    (getOption c9jEx "twitch_login" = none → resolvedLogin c9jEx = getOption c9jEx "login") :=
  c9_falsy_primary_falls_back c9iEx c9jEx (Json.str "") rfl rfl

/-- C10: a POST whose signature verifies but whose body JSON-parses to a
falsy value is rejected with the same plain-text 401 "Bad request
signature." response as an invalid signature; the only effect is the
body parse, so no outbound call occurs. -/
theorem c10_falsy_parsed_body_rejected (admins : List String) (token : String)
    (verify : Verify) (parse : String → Option Json) (ds : Downstream) (req : Request) (j : Json)
    (hv : verifyOk verify req = true) (hp : parse req.body = some j) (hf : jsTruthy j = false) :
    handlePost admins token verify parse ds req =
      (.ok (.plain 401 "Bad request signature."), [.parseBody req.body]) ∧
    (handlePost admins token verify parse ds req).1 =
      (handlePost admins token (fun _ _ _ => false) parse ds req).1 := by
  have h1 : handlePost admins token verify parse ds req =
      (.ok (.plain 401 "Bad request signature."), [.parseBody req.body]) := by
    unfold handlePost
    rw [hv]
    simp [hp, hf]
  have h2 : verifyOk (fun _ _ _ => false) req = false := by
    cases hs : req.sigHeader <;> cases hts : req.tsHeader <;> simp [verifyOk, hs, hts]
  have h3 : handlePost admins token (fun _ _ _ => false) parse ds req =
      (.ok (.plain 401 "Bad request signature."), []) := by
    unfold handlePost
    rw [h2]
    simp
  exact ⟨h1, by rw [h1, h3]⟩

/-- Witness for C10 at a concrete request whose body parses to `null`. -/
theorem c10_falsy_parsed_body_rejected_witness :
    handlePost ADMIN_USER_IDS "tok" (fun _ _ _ => true) (fun _ => some Json.null)
      (dsConst 200 "OK" none) (Request.mk (some "sig") (some "ts") "null") =
      (.ok (.plain 401 "Bad request signature."), [.parseBody "null"]) ∧
    (handlePost ADMIN_USER_IDS "tok" (fun _ _ _ => true) (fun _ => some Json.null)
      (dsConst 200 "OK" none) (Request.mk (some "sig") (some "ts") "null")).1 =
    (handlePost ADMIN_USER_IDS "tok" (fun _ _ _ => false) (fun _ => some Json.null)
      (dsConst 200 "OK" none) (Request.mk (some "sig") (some "ts") "null")).1 :=
  c10_falsy_parsed_body_rejected _ _ _ _ _ _ Json.null rfl rfl rfl

/-- C3: every verified `APPLICATION_COMMAND` interaction whose invoker is
not in the allow-list is answered with the HTTP-200
`CHANNEL_MESSAGE_WITH_SOURCE` reply whose content contains the exact
(string-coerced) invoker identifier, with an empty effect list: no
outbound call is made. -/
theorem c3_unauthorized_echoes_invoker (admins : List String) (token : String)
    (i : Json) (ds : Downstream)
    (ht : jsField i "type" = .ok (some (.num InteractionType_APPLICATION_COMMAND)))
    (ha : isAuthorized admins i = false) :
    handleInteraction admins token i ds =
      (.ok (channelMessage ("⛔ Not authorised (<@" ++ jsToString (getInvokerId i) ++ ">).")), []) ∧
    ∃ pre post, "⛔ Not authorised (<@" ++ jsToString (getInvokerId i) ++ ">)." =
      pre ++ jsToString (getInvokerId i) ++ post := by
  refine ⟨?_, "⛔ Not authorised (<@", ">).", rfl⟩
  rw [handleInteraction_cmd admins token i ds ht]
  simp [ha]

/-- Command interaction from a user that is not on the allow-list. -/
def c3Interaction : Json := mkCmdInteraction "999" "link" []

/-- Witness for C3 at a concrete unauthorized interaction. -/
theorem c3_unauthorized_echoes_invoker_witness :
    handleInteraction ADMIN_USER_IDS "tok" c3Interaction (dsConst 200 "OK" none) =
      (.ok (channelMessage ("⛔ Not authorised (<@" ++ jsToString (getInvokerId c3Interaction) ++ ">).")), []) ∧
    ∃ pre post, "⛔ Not authorised (<@" ++ jsToString (getInvokerId c3Interaction) ++ ">)." =
      pre ++ jsToString (getInvokerId c3Interaction) ++ post :=
  c3_unauthorized_echoes_invoker _ _ _ _ rfl rfl

/-- Authorized `link` invocation with `twitch_login: " CxRyS_ "` and a
resolved `discord_user` id `"42"`. -/
def c4Interaction : Json :=
  mkCmdInteraction "1356193903497318542" "link"
    [("twitch_login", Json.str " CxRyS_ "), ("discord_user", Json.str "42")]

/-- C4: for the authorized link invocation with `twitch_login " CxRyS_ "`
and `discord_user "42"`, exactly one outbound POST is made, to
`{base}/admin/register`, and its payload is exactly
`{login: "cxrys_", discord_user_id: "42"}` — trimmed and lowercased
login, trimmed user id. -/
theorem c4_link_payload_trimmed_lowercased (token : String) (ds : Downstream) :
    (handleInteraction ADMIN_USER_IDS token c4Interaction ds).2 =
      [Effect.outbound (ADMIN_BASE ++ "/admin/register") token
        (Json.obj [("login", Json.str "cxrys_"), ("discord_user_id", Json.str "42")])] := by
  have hred : handleInteraction ADMIN_USER_IDS token c4Interaction ds =
      (let r := linkCase token (some (Json.str " CxRyS_ ")) (some (Json.str "42")) ds
       (.ok r.1, r.2)) := rfl
  rw [hred]
  show (linkCase token (some (Json.str " CxRyS_ ")) (some (Json.str "42")) ds).2 = _
  rw [linkCase_effects token _ _ ds (by decide) (by decide)]
  rfl

/-- Authorized `unlink` invocation with only `broadcaster_id "564886943"`. -/
def c7Interaction : Json :=
  mkCmdInteraction "1356193903497318542" "unlink" [("broadcaster_id", Json.str "564886943")]

/-- C7: for the authorized unlink invocation with only
`broadcaster_id "564886943"`, exactly one outbound POST is made, to
`{base}/admin/unregister`, with payload exactly
`{broadcaster_id: "564886943"}`; the `login` key is absent from the
payload object (looking it up yields undefined, not null or empty). -/
theorem c7_unlink_sparse_payload (token : String) (ds : Downstream) :
    (handleInteraction ADMIN_USER_IDS token c7Interaction ds).2 =
      [Effect.outbound (ADMIN_BASE ++ "/admin/unregister") token
        (Json.obj [("broadcaster_id", Json.str "564886943")])] ∧
    jsLookup [("broadcaster_id", Json.str "564886943")] "login" = none := by
  refine ⟨?_, rfl⟩
  have hred : handleInteraction ADMIN_USER_IDS token c7Interaction ds =
      (let r := unlinkCase token none (some (Json.str "564886943")) ds
       (.ok r.1, r.2)) := rfl
  rw [hred]
  show (unlinkCase token none (some (Json.str "564886943")) ds).2 = _
  rw [unlinkCase_effects token _ _ ds (by decide)]
  rfl

/-- Whether one handler run returned a response normally (true) or ended
in an uncaught throw (false). -/
def returnedOk (r : Except JsErr HandlerResponse × List Effect) : Bool :=
  match r.1 with
  | .ok _ => true
  | .error _ => false

theorem dispatchByName_returnsOk (token : String) (nm : String) (a b c : Option Json)
    (ds : Downstream) :
    returnedOk (dispatchByName token nm a b c ds) = true := by
  unfold dispatchByName
  split
  · rfl
  · split
    · rfl
    · rfl

/-- Authorized `APPLICATION_COMMAND` interaction with no `data` field. -/
def c2NoDataInteraction : Json :=
  .obj [("type", .num InteractionType_APPLICATION_COMMAND),
        ("member", .obj [("user", .obj [("id", .str "1356193903497318542")])])]

/-- Counterexample to C2: a verified `APPLICATION_COMMAND` interaction
from an authorized invoker whose `data` field is absent makes the
evaluation of the switch discriminant `interaction.data.name` throw an
uncaught TypeError, so the handler does not return a response. -/
theorem c2_counterexample :
    returnedOk (handleInteraction ADMIN_USER_IDS "tok" c2NoDataInteraction
      (dsConst 200 "OK" none)) = false ∧
    (handleInteraction ADMIN_USER_IDS "tok" c2NoDataInteraction (dsConst 200 "OK" none)).1 =
      .error (.typeErrorRead "undefined" "name") :=
  ⟨rfl, rfl⟩

/-- C2 amended: every verified `APPLICATION_COMMAND` interaction whose
invoker is unauthorized, or whose `data` field is present and non-null,
makes the handler terminate normally with some response; when the invoker
is authorized and `data` is absent or null, the command-name read throws. -/
theorem c2_amended_total_on_nonnull_data (admins : List String) (token : String)
    (i : Json) (ds : Downstream)
    (ht : jsField i "type" = .ok (some (.num InteractionType_APPLICATION_COMMAND)))
    (hd : isAuthorized admins i = false ∨
          ∃ d, jsField i "data" = .ok (some d) ∧ d ≠ Json.null) :
    returnedOk (handleInteraction admins token i ds) = true := by
  rw [handleInteraction_cmd admins token i ds ht]
  rcases hd with ha | ⟨d, hdf, hdn⟩
  · simp [ha, returnedOk]
  · cases hauth : isAuthorized admins i with
    | false => simp [hauth, returnedOk]
    | true =>
      have hcd : ∃ nm, commandDisc i = .ok nm := by
        unfold commandDisc
        rw [hdf]
        cases d with
        | null => exact absurd rfl hdn
        | bool b => exact ⟨_, rfl⟩
        | num n => exact ⟨_, rfl⟩
        | str s => exact ⟨_, rfl⟩
        | arr xs => exact ⟨_, rfl⟩
        | obj fs => exact ⟨_, rfl⟩
      rcases hcd with ⟨nm, hnm⟩
      simp only [hauth, Bool.not_true, Bool.false_eq_true, if_false, hnm]
      exact dispatchByName_returnsOk token nm _ _ _ ds

/-- Authorized interaction with a present `data` object and an unknown
command name. -/
def c2UnknownCmdInteraction : Json :=
  mkCmdInteraction "1356193903497318542" "nope" []

/-- Witness for the amended C2 at a concrete interaction with non-null
`data`. -/
theorem c2_amended_total_on_nonnull_data_witness :
    returnedOk (handleInteraction ADMIN_USER_IDS "tok" c2UnknownCmdInteraction
      (dsConst 200 "OK" none)) = true :=
  c2_amended_total_on_nonnull_data _ _ _ _ rfl
    (Or.inr ⟨Json.obj [("name", Json.str "nope"), ("options", Json.arr [])], rfl,
      fun h => Json.noConfusion h⟩)

theorem caughtText_jsError (m : String) (hm : m ≠ "") :
    caughtText (.jsError m) = m := by
  simp [caughtText, JsErr.message, hm]

theorem linkCase_fail (token : String) (loginOpt duOpt : Option Json)
    (st : Nat) (stx : String) (body : Option Json)
    (h1 : linkLoginStr loginOpt ≠ "")
    (h2 : jsTrim (jsToString (coalesceEmpty duOpt)) ≠ "")
    (hst : ¬(200 ≤ st ∧ st < 300)) :
    (linkCase token loginOpt duOpt (dsConst st stx body)).1 =
      channelMessage ("❌ Link failed: `" ++ httpErrText st stx body ++ "`") := by
  unfold linkCase
  have hc : (linkLoginStr loginOpt == "" || jsTrim (jsToString (coalesceEmpty duOpt)) == "")
      = false := by
    simp [h1, h2]
  simp only [hc, Bool.false_eq_true, if_false, dsConst]
  rw [postJSON_fail st stx body hst]
  simp [caughtText_jsError _ (httpErrText_ne st stx body)]

theorem unlinkCase_fail (token : String) (loginOpt bidOpt : Option Json)
    (st : Nat) (stx : String) (body : Option Json)
    (h3 : (jsFalsyOpt loginOpt && jsFalsyOpt bidOpt) = false)
    (hst : ¬(200 ≤ st ∧ st < 300)) :
    (unlinkCase token loginOpt bidOpt (dsConst st stx body)).1 =
      channelMessage ("❌ Unlink failed: `" ++ httpErrText st stx body ++ "`") := by
  unfold unlinkCase
  simp only [h3, Bool.false_eq_true, if_false, dsConst]
  rw [postJSON_fail st stx body hst]
  simp [caughtText_jsError _ (httpErrText_ne st stx body)]

/-- Whether one character list begins with another. -/
def strStarts : List Char → List Char → Bool
  | [], _ => true
  | _ :: _, [] => false
  | a :: as, b :: bs => a == b && strStarts as bs

/-- Whether a character list occurs contiguously inside another. -/
def strHas (needle : List Char) : List Char → Bool
  | [] => strStarts needle []
  | c :: cs => strStarts needle (c :: cs) || strHas needle cs

/-- Counterexample to C6: a 500 response whose body JSON-parses to the
falsy value `null` makes `postJSON` throw `HTTP 500 Internal Server
Error` with no serialized response body at all — the serialization
"null" of that body occurs nowhere in the thrown message (line 68
omits the body for every falsy parsed value) — and the chat reply
carries the same body-less text. -/
theorem c6_counterexample :
    postJSON (.response 500 "Internal Server Error" (some Json.null)) =
      .error (.jsError "HTTP 500 Internal Server Error") ∧
    stringify Json.null = "null" ∧
    strHas ("null").data ("HTTP 500 Internal Server Error").data = false ∧
    (linkCase "tok" (some (Json.str "cxrys_")) (some (Json.str "42"))
      (dsConst 500 "Internal Server Error" (some Json.null))).1 =
      channelMessage "❌ Link failed: `HTTP 500 Internal Server Error`" ∧
    (unlinkCase "tok" (some (Json.str "cxrys_")) (some (Json.str "564886943"))
      (dsConst 500 "Internal Server Error" (some Json.null))).1 =
      channelMessage "❌ Unlink failed: `HTTP 500 Internal Server Error`" :=
  ⟨rfl, rfl, by decide, rfl, rfl⟩

/-- C6 amended: when the downstream POST answers with a non-success
status, the error thrown by `postJSON` carries the status code and the
status text, and carries the serialized response body exactly when the
parsed body is truthy (for a falsy-parsing body the message is just
`HTTP status statusText`, with the body omitted); the command handlers
catch the throw and reply with a chat message that starts with
"❌ Link failed:" (respectively "❌ Unlink failed:") and contains the
status code, so no unhandled fault escapes the link or unlink case. -/
theorem c6_amended_failure_reported (token : String)
    (loginOpt duOpt bidOpt : Option Json)
    (st : Nat) (stx : String) (body : Option Json)
    (hst : ¬(200 ≤ st ∧ st < 300))
    (h1 : linkLoginStr loginOpt ≠ "")
    (h2 : jsTrim (jsToString (coalesceEmpty duOpt)) ≠ "")
    (h3 : (jsFalsyOpt loginOpt && jsFalsyOpt bidOpt) = false) :
    postJSON (.response st stx body) = .error (.jsError (httpErrText st stx body)) ∧
    (∃ tail, httpErrText st stx body = "HTTP " ++ toString st ++ " " ++ stx ++ tail) ∧
    (jsTruthy (body.getD (Json.obj [])) = true →
      ∃ pre, httpErrText st stx body = pre ++ stringify (body.getD (Json.obj []))) ∧
    (jsTruthy (body.getD (Json.obj [])) = false →
      httpErrText st stx body = "HTTP " ++ toString st ++ " " ++ stx) ∧
    (linkCase token loginOpt duOpt (dsConst st stx body)).1 =
      channelMessage ("❌ Link failed: `" ++ httpErrText st stx body ++ "`") ∧
    (∃ r1, "❌ Link failed: `" ++ httpErrText st stx body ++ "`" = "❌ Link failed:" ++ r1) ∧
    (∃ a1 b1, "❌ Link failed: `" ++ httpErrText st stx body ++ "`" = a1 ++ toString st ++ b1) ∧
    (unlinkCase token loginOpt bidOpt (dsConst st stx body)).1 =
      channelMessage ("❌ Unlink failed: `" ++ httpErrText st stx body ++ "`") ∧
    (∃ r2, "❌ Unlink failed: `" ++ httpErrText st stx body ++ "`" = "❌ Unlink failed:" ++ r2) ∧
    (∃ a2 b2, "❌ Unlink failed: `" ++ httpErrText st stx body ++ "`" = a2 ++ toString st ++ b2) := by
  refine ⟨postJSON_fail st stx body hst, ⟨_, rfl⟩, ?_, ?_, ?_, ?_, ?_, ?_, ?_, ?_⟩
  · intro htr
    refine ⟨"HTTP " ++ toString st ++ " " ++ stx ++ ": ", ?_⟩
    simp [httpErrText, htr, String.append_assoc]
  · intro htf
    simp [httpErrText, htf]
  · exact linkCase_fail token loginOpt duOpt st stx body h1 h2 hst
  · refine ⟨" `" ++ httpErrText st stx body ++ "`", ?_⟩
    conv_rhs => rw [← String.append_assoc, ← String.append_assoc]
    rfl
  · refine ⟨"❌ Link failed: `" ++ "HTTP ",
      " " ++ stx ++ (if jsTruthy (body.getD (Json.obj [])) then
        ": " ++ stringify (body.getD (Json.obj [])) else "") ++ "`", ?_⟩
    simp only [httpErrText, String.append_assoc]
  · exact unlinkCase_fail token loginOpt bidOpt st stx body h3 hst
  · refine ⟨" `" ++ httpErrText st stx body ++ "`", ?_⟩
    conv_rhs => rw [← String.append_assoc, ← String.append_assoc]
    rfl
  · refine ⟨"❌ Unlink failed: `" ++ "HTTP ",
      " " ++ stx ++ (if jsTruthy (body.getD (Json.obj [])) then
        ": " ++ stringify (body.getD (Json.obj [])) else "") ++ "`", ?_⟩
    simp only [httpErrText, String.append_assoc]

/-- Witness for the amended C6 at a concrete HTTP 500 downstream
response with a truthy JSON body. -/
theorem c6_amended_failure_reported_witness :
    postJSON (.response 500 "Internal Server Error" (some (Json.obj []))) =
      .error (.jsError (httpErrText 500 "Internal Server Error" (some (Json.obj [])))) ∧
    (∃ tail, httpErrText 500 "Internal Server Error" (some (Json.obj [])) =
      "HTTP " ++ toString 500 ++ " " ++ "Internal Server Error" ++ tail) ∧
    (jsTruthy ((some (Json.obj [])).getD (Json.obj [])) = true →
      ∃ pre, httpErrText 500 "Internal Server Error" (some (Json.obj [])) =
        pre ++ stringify ((some (Json.obj [])).getD (Json.obj []))) ∧
    (jsTruthy ((some (Json.obj [])).getD (Json.obj [])) = false →
      httpErrText 500 "Internal Server Error" (some (Json.obj [])) =
        "HTTP " ++ toString 500 ++ " " ++ "Internal Server Error") ∧
    (linkCase "tok" (some (Json.str "cxrys_")) (some (Json.str "42"))
      (dsConst 500 "Internal Server Error" (some (Json.obj [])))).1 =
      channelMessage ("❌ Link failed: `" ++
        httpErrText 500 "Internal Server Error" (some (Json.obj [])) ++ "`") ∧
    (∃ r1, "❌ Link failed: `" ++
        httpErrText 500 "Internal Server Error" (some (Json.obj [])) ++ "`" =
      "❌ Link failed:" ++ r1) ∧
    (∃ a1 b1, "❌ Link failed: `" ++
        httpErrText 500 "Internal Server Error" (some (Json.obj [])) ++ "`" =
      a1 ++ toString 500 ++ b1) ∧
    (unlinkCase "tok" (some (Json.str "cxrys_")) (some (Json.str "564886943"))
      (dsConst 500 "Internal Server Error" (some (Json.obj [])))).1 =
      channelMessage ("❌ Unlink failed: `" ++
        httpErrText 500 "Internal Server Error" (some (Json.obj [])) ++ "`") ∧
    (∃ r2, "❌ Unlink failed: `" ++
        httpErrText 500 "Internal Server Error" (some (Json.obj [])) ++ "`" =
      "❌ Unlink failed:" ++ r2) ∧
    (∃ a2 b2, "❌ Unlink failed: `" ++
        httpErrText 500 "Internal Server Error" (some (Json.obj [])) ++ "`" =
      a2 ++ toString 500 ++ b2) :=
  c6_amended_failure_reported "tok" (some (Json.str "cxrys_")) (some (Json.str "42"))
    (some (Json.str "564886943")) 500 "Internal Server Error" (some (Json.obj []))
    (by decide) (by decide) (by decide) (by decide)

/-- `link` invocation supplying the number 0 as `twitch_login`. -/
def c5TwitchLoginZero : Json :=
  mkCmdInteraction "1356193903497318542" "link"
    [("twitch_login", Json.num 0), ("discord_user", Json.str "42")]

/-- `link` invocation supplying the number 0 as legacy `login`. -/
def c5LoginZero : Json :=
  mkCmdInteraction "1356193903497318542" "link"
    [("login", Json.num 0), ("discord_user", Json.str "42")]

/-- Counterexample to C5: with the number 0 as the option value, the two
spellings differ: as `twitch_login` it resolves to undefined, giving the
missing-options reply with no outbound call, while as `login` it
stringifies to "0" (truthy) and an outbound registration is posted. -/
theorem c5_counterexample :
    handleInteraction ADMIN_USER_IDS "tok" c5TwitchLoginZero
      (dsConst 200 "OK" (some (Json.obj []))) ≠
    handleInteraction ADMIN_USER_IDS "tok" c5LoginZero
      (dsConst 200 "OK" (some (Json.obj []))) := by
  intro h
  have hlen := congrArg (fun r => r.2.length) h
  simp only [] at hlen
  have e1 : (handleInteraction ADMIN_USER_IDS "tok" c5TwitchLoginZero
      (dsConst 200 "OK" (some (Json.obj [])))).2.length = 0 := rfl
  have e2 : (handleInteraction ADMIN_USER_IDS "tok" c5LoginZero
      (dsConst 200 "OK" (some (Json.obj [])))).2.length = 1 := rfl
  rw [e1, e2] at hlen
  exact absurd hlen (by decide)

theorem find?_extra_none (extra : List (String × Json)) (nm : String)
    (hnm : nm = "twitch_login" ∨ nm = "login")
    (hex : ∀ p ∈ extra, p.1 ≠ "twitch_login" ∧ p.1 ≠ "login") :
    extra.find? (fun p => p.1 == nm) = none := by
  rw [List.find?_eq_none]
  intro p hp
  rcases hnm with h | h <;> subst h <;> simp
  · exact (hex p hp).1
  · exact (hex p hp).2

/-- C5 amended: supplying a value only under the legacy option name
`login` behaves identically (same response, same outbound payload) to
supplying it only under `twitch_login`, for every value except the
number 0 and the boolean false (in particular for every string value,
the empty string included); for 0 or false the two spellings diverge, as
the counterexample shows. -/
theorem c5_amended_alias_equivalent (admins : List String) (token : String) (ds : Downstream)
    (who cmd : String) (v : Json) (extra : List (String × Json))
    (hv0 : v ≠ Json.num 0) (hvf : v ≠ Json.bool false)
    (hex : ∀ p ∈ extra, p.1 ≠ "twitch_login" ∧ p.1 ≠ "login") :
    handleInteraction admins token (mkCmdInteraction who cmd (("twitch_login", v) :: extra)) ds =
    handleInteraction admins token (mkCmdInteraction who cmd (("login", v) :: extra)) ds := by
  have hta : jsField (mkCmdInteraction who cmd (("twitch_login", v) :: extra)) "type" =
      .ok (some (.num InteractionType_APPLICATION_COMMAND)) := rfl
  have htb : jsField (mkCmdInteraction who cmd (("login", v) :: extra)) "type" =
      .ok (some (.num InteractionType_APPLICATION_COMMAND)) := rfl
  rw [handleInteraction_cmd admins token _ ds hta, handleInteraction_cmd admins token _ ds htb]
  have hauthEq : isAuthorized admins (mkCmdInteraction who cmd (("login", v) :: extra)) =
      isAuthorized admins (mkCmdInteraction who cmd (("twitch_login", v) :: extra)) := by
    simp [isAuthorized, getInvokerId_mkCmd]
  rw [hauthEq]
  by_cases hA : isAuthorized admins (mkCmdInteraction who cmd (("twitch_login", v) :: extra)) = true
  case neg =>
    simp only [Bool.not_eq_true] at hA
    simp [hA, getInvokerId_mkCmd]
  case pos =>
    simp only [hA, Bool.not_true, Bool.false_eq_true, if_false]
    rw [commandDisc_mkCmd, commandDisc_mkCmd]
    simp only []
    have hdu : getOption (mkCmdInteraction who cmd (("login", v) :: extra)) "discord_user" =
        getOption (mkCmdInteraction who cmd (("twitch_login", v) :: extra)) "discord_user" := by
      rw [getOption_mkCmd, getOption_mkCmd]
      simp [List.find?]
    have hbid : getOption (mkCmdInteraction who cmd (("login", v) :: extra)) "broadcaster_id" =
        getOption (mkCmdInteraction who cmd (("twitch_login", v) :: extra)) "broadcaster_id" := by
      rw [getOption_mkCmd, getOption_mkCmd]
      simp [List.find?]
    rw [hdu, hbid]
    have hAtl : getOption (mkCmdInteraction who cmd (("twitch_login", v) :: extra)) "twitch_login" =
        some v := by
      rw [getOption_mkCmd]
      simp [List.find?]
    have hAlg : getOption (mkCmdInteraction who cmd (("twitch_login", v) :: extra)) "login" =
        none := by
      rw [getOption_mkCmd]
      simp [List.find?, find?_extra_none extra "login" (Or.inr rfl) hex]
    have hBtl : getOption (mkCmdInteraction who cmd (("login", v) :: extra)) "twitch_login" =
        none := by
      rw [getOption_mkCmd]
      simp [List.find?, find?_extra_none extra "twitch_login" (Or.inl rfl) hex]
    have hBlg : getOption (mkCmdInteraction who cmd (("login", v) :: extra)) "login" =
        some v := by
      rw [getOption_mkCmd]
      simp [List.find?]
    by_cases htv : jsTruthy v = true
    · have hresA : resolvedLogin (mkCmdInteraction who cmd (("twitch_login", v) :: extra)) =
          some v := by
        rw [resolvedLogin, hAtl, hAlg]
        simp [jsOrOpt, htv]
      have hresB : resolvedLogin (mkCmdInteraction who cmd (("login", v) :: extra)) =
          some v := by
        rw [resolvedLogin, hBtl, hBlg]
        rfl
      rw [hresA, hresB]
    · have hcases : v = Json.null ∨ v = Json.str "" := by
        cases v with
        | null => exact Or.inl rfl
        | bool b =>
          cases b with
          | false => exact absurd rfl hvf
          | true => exact absurd rfl htv
        | num n =>
          by_cases hn : n = 0
          · subst hn
            exact absurd rfl hv0
          · exact absurd (by simp [jsTruthy, hn]) htv
        | str s =>
          by_cases hs : s = ""
          · subst hs
            exact Or.inr rfl
          · exact absurd (by simp [jsTruthy, hs]) htv
        | arr xs => exact absurd rfl htv
        | obj fs => exact absurd rfl htv
      have hresA : resolvedLogin (mkCmdInteraction who cmd (("twitch_login", v) :: extra)) =
          none := by
        rw [resolvedLogin, hAtl, hAlg]
        rcases hcases with hc | hc <;> subst hc <;> rfl
      have hresB : resolvedLogin (mkCmdInteraction who cmd (("login", v) :: extra)) =
          some v := by
        rw [resolvedLogin, hBtl, hBlg]
        rfl
      rw [hresA, hresB]
      rcases hcases with hc | hc <;> subst hc <;> rfl

/-- Witness for the amended C5 at a concrete unlink invocation. -/
theorem c5_amended_alias_equivalent_witness :
    handleInteraction ADMIN_USER_IDS "tok"
      (mkCmdInteraction "u" "unlink"
        (("twitch_login", Json.str "x") :: [("broadcaster_id", Json.str "5")]))
      (dsConst 200 "OK" none) =
    handleInteraction ADMIN_USER_IDS "tok"
      (mkCmdInteraction "u" "unlink"
        (("login", Json.str "x") :: [("broadcaster_id", Json.str "5")]))
      (dsConst 200 "OK" none) :=
  c5_amended_alias_equivalent ADMIN_USER_IDS "tok" (dsConst 200 "OK" none) "u" "unlink"
    (Json.str "x") [("broadcaster_id", Json.str "5")]
    (fun h => Json.noConfusion h) (fun h => Json.noConfusion h)
    (by
      intro p hp
      rw [List.mem_singleton] at hp
      subst hp
      exact ⟨by decide, by decide⟩)
